import Mathlib

/-!
Verification of the `vested` repository: an equity-vesting calculator with a
cliff-and-linear monthly schedule. The repository holds two crates,
`vested` (unsigned integer parameters) and `vested-rs` (signed integer
parameters plus a schedule builder). Floating-point (`f32`) arithmetic in the
source is modelled exactly over the rationals `ℚ`; machine integers `i32`/`u32`
are modelled as `ℤ`/`ℕ` (no arithmetic in the source comes near overflow for
the quantities involved). Calendar dates are modelled as year/month/day
triples; the month arithmetic of the `chrono`/`chronoutil` collaborators
(month index difference, adding months with day clamped to the end of the
target month, as in `RelativeDuration::months` and `DateRule::monthly`)
is embedded explicitly.
-/

/-- A calendar date, as exposed by chrono `Date<Utc>`: a year, a month
(1 to 12 on well-formed dates) and a day of month. -/
structure Date where
  year : ℤ
  month : ℤ
  day : ℤ
deriving DecidableEq

/-- Proleptic-Gregorian leap-year test, as used by chrono. -/
def Date.isLeapYear (y : ℤ) : Bool :=
  y % 4 == 0 && (y % 100 != 0 || y % 400 == 0)

/-- Number of days in a given month of a given year (proleptic Gregorian). -/
def Date.daysInMonth (y m : ℤ) : ℤ :=
  if m = 2 then (if Date.isLeapYear y then 29 else 28)
  else if m = 4 ∨ m = 6 ∨ m = 9 ∨ m = 11 then 30
  else 31

/-- Add `n` months to a date, clamping the day to the end of the target month:
the month-shift of chronoutil (`RelativeDuration::months`, and each occurrence
of `DateRule::monthly`, which steps from the rule start). -/
def Date.addMonths (d : Date) (n : ℤ) : Date :=
  let t : ℤ := d.year * 12 + (d.month - 1) + n
  let y : ℤ := t / 12
  let m : ℤ := t % 12 + 1
  { year := y, month := m, day := min d.day (Date.daysInMonth y m) }

/-- A well-formed calendar date: month in 1..12 and day within the month.
Every chrono `Date<Utc>` value satisfies this. -/
def Date.IsValid (d : Date) : Prop :=
  1 ≤ d.month ∧ d.month ≤ 12 ∧ 1 ≤ d.day ∧ d.day ≤ Date.daysInMonth d.year d.month

/-- Chronological order on dates (lexicographic on year, month, day). -/
def Date.le (a b : Date) : Prop :=
  a.year < b.year ∨
    (a.year = b.year ∧ (a.month < b.month ∨ (a.month = b.month ∧ a.day ≤ b.day)))

instance (d : Date) : Decidable (Date.IsValid d) := by
  unfold Date.IsValid
  infer_instance

instance (a b : Date) : Decidable (Date.le a b) := by
  unfold Date.le
  infer_instance

namespace VestedRs

/-- Vesting interval kinds of `vested-rs` (a single variant today). -/
inductive VestingInterval where
  | Monthly
deriving DecidableEq

/-- Configuration of a vesting schedule (`vested-rs`): interval kind, cliff
percentage (`f32`, modelled as `ℚ`), cliff and length in months (`i32`,
modelled as `ℤ`). -/
structure VestingScheduleConfiguration where
  interval : VestingInterval
  cliff_percentage : ℚ
  cliff : ℤ
  length : ℤ

/-- An equity grant (`vested-rs`): amount (`i32`), grant date, and a vesting
schedule configuration. -/
structure Grant where
  amount : ℤ
  grant_date : Date
  vesting_schedule : VestingScheduleConfiguration

/-- One entry of an enumerated schedule: a date and the floored cumulative
vested amount at that date. -/
structure VestingPeriod where
  date : Date
  cumulative_vested_amount : ℤ
deriving DecidableEq

/-- The full enumerated schedule returned by `calculate_vesting_schedule`. -/
structure VestingSchedule where
  from_date : Date
  to_date : Date
  periods : List VestingPeriod

/-- Operation `Grant::months_difference`: the signed calendar-month index difference
between the grant date and the given date. -/
def Grant.months_difference (g : Grant) (future_date : Date) : ℤ :=
  let year_difference := future_date.year - g.grant_date.year
  year_difference * 12 + (future_date.month - g.grant_date.month)

/-- Operation `Grant::is_before_cliff`: whether the date is still in the cliff period. -/
def Grant.is_before_cliff (g : Grant) (future_date : Date) : Bool :=
  decide (g.months_difference future_date < g.vesting_schedule.cliff)

/-- Operation `Grant::cliff_vested_amount`: amount vested the instant the cliff is
reached. -/
def Grant.cliff_vested_amount (g : Grant) : ℚ :=
  (g.amount : ℚ) * g.vesting_schedule.cliff_percentage

/-- Operation `Grant::calculate_vested_amount` of `vested-rs`, transcribed branch by
branch; `f32` arithmetic is modelled exactly in `ℚ`. -/
def Grant.calculate_vested_amount (g : Grant) (future_date : Date) : ℚ :=
  match g.vesting_schedule.interval with
  | VestingInterval.Monthly =>
    if g.is_before_cliff future_date then 0
    else if g.months_difference future_date > g.vesting_schedule.length then (g.amount : ℚ)
    else
      let months_past_cliff := g.months_difference future_date - g.vesting_schedule.cliff
      if months_past_cliff = 0 then g.cliff_vested_amount
      else
        let remaining_amount_after_cliff : ℚ := (g.amount : ℚ) - g.cliff_vested_amount
        let vested_per_month : ℚ :=
          remaining_amount_after_cliff /
            ((g.vesting_schedule.length - g.vesting_schedule.cliff : ℤ) : ℚ)
        let vested_after_cliff : ℚ := vested_per_month * (months_past_cliff : ℚ)
        g.cliff_vested_amount + vested_after_cliff

/-- The branch through which `calculate_vested_amount` returns, mirroring its
control flow: pre-cliff, fully vested, exactly at the cliff
(`months_past_cliff == 0`), or the linear-accrual branch holding the division
by `length - cliff`. -/
inductive VestedBranch where
  | preCliff
  | fullyVested
  | atCliff
  | linear
deriving DecidableEq

/-- The branch `calculate_vested_amount` takes on a given date. -/
def Grant.vested_branch (g : Grant) (future_date : Date) : VestedBranch :=
  match g.vesting_schedule.interval with
  | VestingInterval.Monthly =>
    if g.is_before_cliff future_date then VestedBranch.preCliff
    else if g.months_difference future_date > g.vesting_schedule.length then
      VestedBranch.fullyVested
    else if g.months_difference future_date - g.vesting_schedule.cliff = 0 then
      VestedBranch.atCliff
    else VestedBranch.linear

/-- Variant of `calculate_vested_amount` with the division guarded: `none` exactly when
the linear branch would divide by `length - cliff = 0`. -/
def Grant.calculate_vested_amount_checked (g : Grant) (future_date : Date) : Option ℚ :=
  match g.vesting_schedule.interval with
  | VestingInterval.Monthly =>
    if g.is_before_cliff future_date then some 0
    else if g.months_difference future_date > g.vesting_schedule.length then
      some (g.amount : ℚ)
    else
      let months_past_cliff := g.months_difference future_date - g.vesting_schedule.cliff
      if months_past_cliff = 0 then some g.cliff_vested_amount
      else if g.vesting_schedule.length - g.vesting_schedule.cliff = 0 then none
      else
        some (g.cliff_vested_amount +
          (((g.amount : ℚ) - g.cliff_vested_amount) /
              ((g.vesting_schedule.length - g.vesting_schedule.cliff : ℤ) : ℚ)) *
            (months_past_cliff : ℚ))

/-- Operation `Grant::calculate_vesting_schedule`: `length + 1` monthly-stepped dates
from the grant date (`DateRule::monthly(...).with_count(length as usize + 1)`),
each paired with the floor of the vested amount at that date; `to_date` is the
grant date plus `length` months. -/
def Grant.calculate_vesting_schedule (g : Grant) : VestingSchedule :=
  let to_date := Date.addMonths g.grant_date g.vesting_schedule.length
  let periods := (List.range (g.vesting_schedule.length.toNat + 1)).map (fun (i : ℕ) =>
    let month := Date.addMonths g.grant_date (i : ℤ)
    { date := month
      cumulative_vested_amount := Int.floor (g.calculate_vested_amount month) : VestingPeriod })
  { from_date := g.grant_date, to_date := to_date, periods := periods }

/-- The validity conditions the specification places on a grant configuration:
cliff at most length, cliff percentage in `[0, 1]`, non-negative amount. -/
def Grant.ValidConfig (g : Grant) : Prop :=
  g.vesting_schedule.cliff ≤ g.vesting_schedule.length ∧
    0 ≤ g.vesting_schedule.cliff_percentage ∧
    g.vesting_schedule.cliff_percentage ≤ 1 ∧
    0 ≤ g.amount

instance (g : Grant) : Decidable (Grant.ValidConfig g) := by
  unfold Grant.ValidConfig
  infer_instance

end VestedRs

namespace Vested

/-- Vesting schedule kinds of the `vested` crate (a single variant today). -/
inductive VestingScheduleKind where
  | Monthly
deriving DecidableEq

/-- Vesting schedule of the `vested` crate: kind, cliff percentage (`f32`
modelled as `ℚ`), cliff and length in months (`u32`, modelled as `ℕ`). -/
structure VestingSchedule where
  kind : VestingScheduleKind
  cliff_percentage : ℚ
  cliff : ℕ
  length : ℕ

/-- An equity grant of the `vested` crate: amount (`u32`), grant date, and a
vesting schedule. -/
structure Grant where
  amount : ℕ
  grant_date : Date
  vesting_schedule : VestingSchedule

/-- Operation `Grant::calculate_vested_amount` of the `vested` crate, with the month
difference computed inline, as in the source; the `u32` casts to `i32` become
`ℕ` casts to `ℤ`, and the unsigned subtraction `length - cliff` becomes `ℕ`
subtraction (it is only consumed on the branch where `cliff < length`). -/
def Grant.calculate_vested_amount (g : Grant) (future_date : Date) : ℚ :=
  match g.vesting_schedule.kind with
  | VestingScheduleKind.Monthly =>
    let year_difference := future_date.year - g.grant_date.year
    let months_difference := year_difference * 12 + (future_date.month - g.grant_date.month)
    let is_before_cliff := decide (months_difference < (g.vesting_schedule.cliff : ℤ))
    if is_before_cliff then 0
    else if months_difference > (g.vesting_schedule.length : ℤ) then (g.amount : ℚ)
    else
      let months_past_cliff := months_difference - (g.vesting_schedule.cliff : ℤ)
      let vested_with_cliff : ℚ := (g.amount : ℚ) * g.vesting_schedule.cliff_percentage
      if months_past_cliff = 0 then vested_with_cliff
      else
        let remaining_amount_after_cliff : ℚ := (g.amount : ℚ) - vested_with_cliff
        let vested_per_month : ℚ :=
          remaining_amount_after_cliff /
            ((g.vesting_schedule.length - g.vesting_schedule.cliff : ℕ) : ℚ)
        let vested_after_cliff : ℚ := vested_per_month * (months_past_cliff : ℚ)
        vested_with_cliff + vested_after_cliff

end Vested

/-- The piecewise vesting function exactly as the specification words it, with
the four cases tried in the order the specification lists them: zero before the
cliff, the full amount past the schedule end, the cliff lump sum exactly at the
cliff, and otherwise linear accrual between cliff and length. -/
def specVestedPiecewise (g : VestedRs.Grant) (reference_date : Date) : ℚ :=
  let m := g.months_difference reference_date
  let amount : ℚ := (g.amount : ℚ)
  let p := g.vesting_schedule.cliff_percentage
  if m < g.vesting_schedule.cliff then 0
  else if m > g.vesting_schedule.length then amount
  else if m = g.vesting_schedule.cliff then amount * p
  else
    amount * p +
      ((amount - amount * p) /
          ((g.vesting_schedule.length : ℚ) - (g.vesting_schedule.cliff : ℚ))) *
        ((m : ℚ) - (g.vesting_schedule.cliff : ℚ))


lemma calc_eq_specVestedPiecewise (g : VestedRs.Grant) (d : Date) :
    g.calculate_vested_amount d = specVestedPiecewise g d := by
  obtain ⟨a, gd, iv, p, c, l⟩ := g
  cases iv
  simp only [VestedRs.Grant.calculate_vested_amount, VestedRs.Grant.is_before_cliff,
    VestedRs.Grant.cliff_vested_amount, specVestedPiecewise,
    VestedRs.Grant.months_difference, decide_eq_true_eq]
  split_ifs with h1 h2 h3 h4 <;> try rfl
  · omega
  · omega
  · push_cast
    ring

lemma months_difference_addMonths (g : VestedRs.Grant) (n : ℤ) :
    g.months_difference (Date.addMonths g.grant_date n) = n := by
  unfold VestedRs.Grant.months_difference Date.addMonths
  dsimp only
  omega

/-- The same piecewise vesting value as a function of the bare parameters:
amount `a`, cliff percentage `p`, cliff `c`, length `l`, and the month index
difference `m`. -/
def pwVested (a p : ℚ) (c l m : ℤ) : ℚ :=
  if m < c then 0
  else if m > l then a
  else if m = c then a * p
  else a * p + ((a - a * p) / ((l : ℚ) - (c : ℚ))) * ((m : ℚ) - (c : ℚ))

/-- The grant used by the `vested-rs` point-query test: 10000 units granted on
2020-02-06, 25 percent cliff after 12 months, 48-month schedule. -/
def grantExample : VestedRs.Grant :=
  { amount := 10000
    grant_date := { year := 2020, month := 2, day := 6 }
    vesting_schedule :=
      { interval := VestedRs.VestingInterval.Monthly
        cliff_percentage := 1/4
        cliff := 12
        length := 48 } }

/-- The grant used by the `vested-rs` schedule test: 10000 units granted on
2020-02-06, 25 percent cliff after 6 months, 12-month schedule. -/
def grantExample2 : VestedRs.Grant :=
  { amount := 10000
    grant_date := { year := 2020, month := 2, day := 6 }
    vesting_schedule :=
      { interval := VestedRs.VestingInterval.Monthly
        cliff_percentage := 1/4
        cliff := 6
        length := 12 } }

/-- A configuration violating every validity condition at once: negative
amount, cliff percentage above one, cliff longer than the schedule. -/
def grantInvalid : VestedRs.Grant :=
  { amount := -5
    grant_date := { year := 2020, month := 1, day := 1 }
    vesting_schedule :=
      { interval := VestedRs.VestingInterval.Monthly
        cliff_percentage := 2
        cliff := 10
        length := 3 } }

/-- A degenerate but valid configuration with cliff equal to length. -/
def grantDegenerate : VestedRs.Grant :=
  { amount := 100
    grant_date := { year := 2020, month := 1, day := 1 }
    vesting_schedule :=
      { interval := VestedRs.VestingInterval.Monthly
        cliff_percentage := 1/2
        cliff := 12
        length := 12 } }

lemma specVestedPiecewise_eq_pwVested (g : VestedRs.Grant) (d : Date) :
    specVestedPiecewise g d =
      pwVested (g.amount : ℚ) g.vesting_schedule.cliff_percentage
        g.vesting_schedule.cliff g.vesting_schedule.length (g.months_difference d) := rfl

lemma calc_eq_pwVested (g : VestedRs.Grant) (d : Date) :
    g.calculate_vested_amount d =
      pwVested (g.amount : ℚ) g.vesting_schedule.cliff_percentage
        g.vesting_schedule.cliff g.vesting_schedule.length (g.months_difference d) :=
  calc_eq_specVestedPiecewise g d

lemma pwVested_eq_affine (a p : ℚ) (c l m : ℤ) (hcm : c ≤ m) (hml : m ≤ l) (hcl : c < l) :
    pwVested a p c l m = a * p + ((a - a * p) / ((l : ℚ) - (c : ℚ))) * ((m : ℚ) - (c : ℚ)) := by
  unfold pwVested
  split_ifs with h1 h2 h3
  · omega
  · omega
  · subst h3
    simp
  · rfl

lemma pwVested_at_length (a p : ℚ) (c l : ℤ) (hcl : c < l) : pwVested a p c l l = a := by
  rw [pwVested_eq_affine a p c l l hcl.le le_rfl hcl]
  have hne : ((l : ℚ) - (c : ℚ)) ≠ 0 := by
    have : (c : ℚ) < (l : ℚ) := by exact_mod_cast hcl
    linarith
  field_simp

lemma pwVested_nonneg (a p : ℚ) (c l m : ℤ) (hcl : c ≤ l) (hp0 : 0 ≤ p) (hp1 : p ≤ 1)
    (ha : 0 ≤ a) : 0 ≤ pwVested a p c l m := by
  unfold pwVested
  split_ifs with h1 h2 h3
  · exact le_rfl
  · exact ha
  · exact mul_nonneg ha hp0
  · have hcm : c < m := by omega
    have hml : m ≤ l := by omega
    have hcl2 : c < l := by omega
    have hden : (0 : ℚ) < (l : ℚ) - (c : ℚ) := by
      have : (c : ℚ) < (l : ℚ) := by exact_mod_cast hcl2
      linarith
    have hrem : 0 ≤ a - a * p := by nlinarith
    have hm : (0 : ℚ) ≤ (m : ℚ) - (c : ℚ) := by
      have : (c : ℚ) < (m : ℚ) := by exact_mod_cast hcm
      linarith
    have := mul_nonneg (div_nonneg hrem hden.le) hm
    nlinarith [mul_nonneg ha hp0]

lemma pwVested_le_amount (a p : ℚ) (c l m : ℤ) (hcl : c ≤ l) (hp0 : 0 ≤ p) (hp1 : p ≤ 1)
    (ha : 0 ≤ a) : pwVested a p c l m ≤ a := by
  unfold pwVested
  split_ifs with h1 h2 h3
  · exact ha
  · exact le_rfl
  · nlinarith
  · have hcm : c < m := by omega
    have hml : m ≤ l := by omega
    have hcl2 : c < l := by omega
    have hden : (0 : ℚ) < (l : ℚ) - (c : ℚ) := by
      have : (c : ℚ) < (l : ℚ) := by exact_mod_cast hcl2
      linarith
    have hrem : 0 ≤ a - a * p := by nlinarith
    have hmq : (m : ℚ) - (c : ℚ) ≤ (l : ℚ) - (c : ℚ) := by
      have : (m : ℚ) ≤ (l : ℚ) := by exact_mod_cast hml
      linarith
    have hstep : ((a - a * p) / ((l : ℚ) - (c : ℚ))) * ((m : ℚ) - (c : ℚ)) ≤
        ((a - a * p) / ((l : ℚ) - (c : ℚ))) * ((l : ℚ) - (c : ℚ)) :=
      mul_le_mul_of_nonneg_left hmq (div_nonneg hrem hden.le)
    rw [div_mul_cancel₀ _ hden.ne'] at hstep
    linarith

lemma pwVested_mono (a p : ℚ) (c l m₁ m₂ : ℤ) (hcl : c ≤ l) (hp0 : 0 ≤ p) (hp1 : p ≤ 1)
    (ha : 0 ≤ a) (hm : m₁ ≤ m₂) : pwVested a p c l m₁ ≤ pwVested a p c l m₂ := by
  rcases lt_or_le m₁ c with h1 | h1
  · have : pwVested a p c l m₁ = 0 := by
      unfold pwVested
      rw [if_pos h1]
    rw [this]
    exact pwVested_nonneg a p c l m₂ hcl hp0 hp1 ha
  · rcases lt_or_le l m₂ with h2 | h2
    · have : pwVested a p c l m₂ = a := by
        unfold pwVested
        rw [if_neg (by omega), if_pos h2]
      rw [this]
      exact pwVested_le_amount a p c l m₁ hcl hp0 hp1 ha
    · rcases eq_or_lt_of_le hcl with hceq | hclt
      · have hm1 : m₁ = m₂ := by omega
        rw [hm1]
      · rw [pwVested_eq_affine a p c l m₁ h1 (by omega) hclt,
          pwVested_eq_affine a p c l m₂ (by omega) h2 hclt]
        have hden : (0 : ℚ) < (l : ℚ) - (c : ℚ) := by
          have : (c : ℚ) < (l : ℚ) := by exact_mod_cast hclt
          linarith
        have hrem : 0 ≤ a - a * p := by nlinarith
        have hmq : (m₁ : ℚ) - (c : ℚ) ≤ (m₂ : ℚ) - (c : ℚ) := by
          have : (m₁ : ℚ) ≤ (m₂ : ℚ) := by exact_mod_cast hm
          linarith
        have := mul_le_mul_of_nonneg_left hmq (div_nonneg hrem hden.le)
        linarith

lemma months_difference_mono (g : VestedRs.Grant) (d₁ d₂ : Date) (h₁ : d₁.IsValid)
    (h₂ : d₂.IsValid) (h : Date.le d₁ d₂) :
    g.months_difference d₁ ≤ g.months_difference d₂ := by
  unfold VestedRs.Grant.months_difference
  unfold Date.IsValid at h₁ h₂
  unfold Date.le at h
  dsimp only
  omega

/-- C1: for every Grant with Monthly interval and every reference date,
calculate_vested_amount follows the piecewise definition of the
specification, the four cases taken in the order the specification lists
them: 0 strictly before the cliff, the full amount strictly past length,
amount times cliff_percentage exactly at the cliff, and otherwise the linear
accrual amount * cliff_percentage + ((amount - amount * cliff_percentage) /
(length - cliff)) * (months_difference - cliff). -/
theorem c1_calculate_vested_amount_piecewise :
    ∀ (g : VestedRs.Grant) (reference_date : Date),
      g.calculate_vested_amount reference_date = specVestedPiecewise g reference_date :=
  calc_eq_specVestedPiecewise

/-- C6: months_difference is exactly the calendar-month index difference
(year delta times 12 plus month delta), it depends only on year and month of
the two dates (never on day-of-month, so two reference dates in the same
calendar month agree), and it is 0 for dates in the month of the grant date.
It is total by construction. -/
theorem c6_months_difference_spec :
    ∀ (g : VestedRs.Grant) (d : Date),
      g.months_difference d =
        (d.year - g.grant_date.year) * 12 + (d.month - g.grant_date.month) ∧
      (∀ d₂ : Date, d₂.year = d.year → d₂.month = d.month →
        g.months_difference d₂ = g.months_difference d) ∧
      (d.year = g.grant_date.year → d.month = g.grant_date.month →
        g.months_difference d = 0) := by
  intro g d
  refine ⟨rfl, ?_, ?_⟩
  · intro d₂ hy hm
    unfold VestedRs.Grant.months_difference
    dsimp only
    omega
  · intro hy hm
    unfold VestedRs.Grant.months_difference
    dsimp only
    omega

/-- Witness for C6 at the test grant: two dates of March 2021 agree on the
month difference, and a date in the grant month gives 0. -/
theorem c6_witness :
    grantExample.months_difference { year := 2021, month := 3, day := 1 } =
      grantExample.months_difference { year := 2021, month := 3, day := 28 } ∧
    grantExample.months_difference { year := 2020, month := 2, day := 15 } = 0 :=
  ⟨(c6_months_difference_spec grantExample { year := 2021, month := 3, day := 28 }).2.1
      { year := 2021, month := 3, day := 1 } rfl rfl,
   (c6_months_difference_spec grantExample { year := 2020, month := 2, day := 15 }).2.2 rfl rfl⟩

/-- C9: the two crates agree: for every amount, cliff and length representable
in both (that is, non-negative) and every percentage, grant date and reference
date, the `vested` and `vested-rs` implementations of calculate_vested_amount
return the same value. -/
theorem c9_implementations_agree :
    ∀ (amount cliff length : ℕ) (p : ℚ) (gd d : Date),
      VestedRs.Grant.calculate_vested_amount
        { amount := (amount : ℤ)
          grant_date := gd
          vesting_schedule :=
            { interval := VestedRs.VestingInterval.Monthly
              cliff_percentage := p
              cliff := (cliff : ℤ)
              length := (length : ℤ) } } d =
      Vested.Grant.calculate_vested_amount
        { amount := amount
          grant_date := gd
          vesting_schedule :=
            { kind := Vested.VestingScheduleKind.Monthly
              cliff_percentage := p
              cliff := cliff
              length := length } } d := by
  intro a c l p gd d
  simp only [VestedRs.Grant.calculate_vested_amount, Vested.Grant.calculate_vested_amount,
    VestedRs.Grant.is_before_cliff, VestedRs.Grant.months_difference,
    VestedRs.Grant.cliff_vested_amount, decide_eq_true_eq]
  split_ifs with h1 h2 h3
  · rfl
  · push_cast
    ring
  · push_cast
    ring
  · have hcl : c ≤ l := by omega
    rw [Nat.cast_sub hcl]
    push_cast
    ring

/-- C10: a reference date whose calendar month precedes the grant month
(negative months_difference) yields 0 whenever the cliff is non-negative:
past dates fall into the pre-cliff branch rather than being rejected. -/
theorem c10_before_grant_month_zero :
    ∀ (g : VestedRs.Grant) (d : Date), 0 ≤ g.vesting_schedule.cliff →
      g.months_difference d < 0 → g.calculate_vested_amount d = 0 := by
  intro g d hc hm
  rw [calc_eq_pwVested]
  unfold pwVested
  rw [if_pos (by omega)]

/-- Witness for C10: May 2019 precedes the February 2020 grant month of the
test grant and gives 0. -/
theorem c10_witness :
    (0 : ℤ) ≤ grantExample.vesting_schedule.cliff ∧
    grantExample.months_difference { year := 2019, month := 5, day := 1 } < 0 ∧
    grantExample.calculate_vested_amount { year := 2019, month := 5, day := 1 } = 0 :=
  ⟨by decide, by decide,
   c10_before_grant_month_zero grantExample { year := 2019, month := 5, day := 1 }
     (by decide) (by decide)⟩

/-- C4 counterexample: on a valid grant with cliff equal to length (here 12,
amount 100, cliff percentage one half) the value at exactly length months is
taken by the months_past_cliff == 0 branch, giving 50, not the full amount. -/
theorem c4_counterexample :
    grantDegenerate.ValidConfig ∧
    grantDegenerate.vesting_schedule.length ≤
      grantDegenerate.months_difference { year := 2021, month := 1, day := 1 } ∧
    grantDegenerate.calculate_vested_amount { year := 2021, month := 1, day := 1 } = 50 ∧
    grantDegenerate.calculate_vested_amount { year := 2021, month := 1, day := 1 } ≠
      (grantDegenerate.amount : ℚ) := by
  refine ⟨?_, by decide, ?_, ?_⟩
  · unfold VestedRs.Grant.ValidConfig grantDegenerate
    norm_num
  · norm_num [grantDegenerate, VestedRs.Grant.calculate_vested_amount,
      VestedRs.Grant.is_before_cliff, VestedRs.Grant.months_difference,
      VestedRs.Grant.cliff_vested_amount]
  · norm_num [grantDegenerate, VestedRs.Grant.calculate_vested_amount,
      VestedRs.Grant.is_before_cliff, VestedRs.Grant.months_difference,
      VestedRs.Grant.cliff_vested_amount]

/-- C4 (amended): for every valid grant whose cliff is strictly below its
length, every reference date at or past length months is fully vested, and at
exactly length months the linear-accrual branch (not the fully-vested branch)
is the one taken, evaluating to the full amount. -/
theorem c4_fully_vested_amended (g : VestedRs.Grant) (d : Date) (hv : g.ValidConfig)
    (hcl : g.vesting_schedule.cliff < g.vesting_schedule.length)
    (hm : g.vesting_schedule.length ≤ g.months_difference d) :
    g.calculate_vested_amount d = (g.amount : ℚ) ∧
    (g.months_difference d = g.vesting_schedule.length →
      g.vested_branch d = VestedRs.VestedBranch.linear) := by
  constructor
  · rw [calc_eq_pwVested]
    rcases eq_or_lt_of_le hm with heq | hlt
    · rw [← heq]
      exact pwVested_at_length _ _ _ _ hcl
    · unfold pwVested
      rw [if_neg (by omega), if_pos hlt]
  · intro hd
    obtain ⟨a, gd, iv, p, c, l⟩ := g
    cases iv
    simp only [VestedRs.Grant.vested_branch, VestedRs.Grant.is_before_cliff,
      decide_eq_true_eq] at *
    split_ifs with h1 h2 h3
    · exact absurd h1 (by omega)
    · exact absurd h2 (by omega)
    · exact absurd h3 (by omega)
    · rfl

/-- Witness for C4: the test grant is fully vested (10000) at March 2024 and
takes the linear branch at exactly 48 months (February 2024). -/
theorem c4_witness :
    grantExample.calculate_vested_amount { year := 2024, month := 3, day := 6 } =
      (grantExample.amount : ℚ) ∧
    grantExample.vested_branch { year := 2024, month := 2, day := 6 } =
      VestedRs.VestedBranch.linear := by
  have hv : grantExample.ValidConfig := by
    unfold VestedRs.Grant.ValidConfig grantExample
    norm_num
  exact ⟨(c4_fully_vested_amended grantExample { year := 2024, month := 3, day := 6 } hv
      (by decide) (by decide)).1,
    (c4_fully_vested_amended grantExample { year := 2024, month := 2, day := 6 } hv
      (by decide) (by decide)).2 (by decide)⟩

/-- C5: for a fixed valid grant, calculate_vested_amount is monotonically
non-decreasing in the reference date (chronological order on well-formed
dates). -/
theorem c5_monotone (g : VestedRs.Grant) (d₁ d₂ : Date) (hv : g.ValidConfig)
    (h₁ : d₁.IsValid) (h₂ : d₂.IsValid) (hle : Date.le d₁ d₂) :
    g.calculate_vested_amount d₁ ≤ g.calculate_vested_amount d₂ := by
  rw [calc_eq_pwVested, calc_eq_pwVested]
  obtain ⟨hcl, hp0, hp1, ha⟩ := hv
  exact pwVested_mono _ _ _ _ _ _ hcl hp0 hp1 (by exact_mod_cast ha)
    (months_difference_mono g d₁ d₂ h₁ h₂ hle)

/-- Witness for C5 on the test grant: the vested amount at February 2021 is at
most the vested amount at March 2022. -/
theorem c5_witness :
    grantExample.ValidConfig ∧
    grantExample.calculate_vested_amount { year := 2021, month := 2, day := 6 } ≤
      grantExample.calculate_vested_amount { year := 2022, month := 3, day := 6 } := by
  have hv : grantExample.ValidConfig := by
    unfold VestedRs.Grant.ValidConfig grantExample
    norm_num
  exact ⟨hv, c5_monotone grantExample { year := 2021, month := 2, day := 6 }
    { year := 2022, month := 3, day := 6 } hv (by decide) (by decide) (by decide)⟩

/-- C8: when cliff equals length, every call to calculate_vested_amount
returns through the pre-cliff, fully-vested or months_past_cliff == 0 branch
(never the linear branch holding the division), and the division-guarded
variant of the computation succeeds with the same value: no division by zero
occurs. -/
theorem c8_no_division_at_degenerate_cliff (g : VestedRs.Grant) (d : Date)
    (h : g.vesting_schedule.cliff = g.vesting_schedule.length) :
    (g.vested_branch d = VestedRs.VestedBranch.preCliff ∨
     g.vested_branch d = VestedRs.VestedBranch.fullyVested ∨
     g.vested_branch d = VestedRs.VestedBranch.atCliff) ∧
    g.calculate_vested_amount_checked d = some (g.calculate_vested_amount d) := by
  obtain ⟨a, gd, iv, p, c, l⟩ := g
  cases iv
  simp only [VestedRs.Grant.vested_branch, VestedRs.Grant.calculate_vested_amount_checked,
    VestedRs.Grant.calculate_vested_amount, VestedRs.Grant.is_before_cliff,
    decide_eq_true_eq] at *
  constructor
  · split_ifs with h1 h2 h3
    · exact Or.inl rfl
    · exact Or.inr (Or.inl rfl)
    · exact Or.inr (Or.inr rfl)
    · exact absurd h3 (by omega)
  · split_ifs with h1 h2 h3 h4
    · rfl
    · rfl
    · rfl
    · exact absurd h3 (by omega)
    · exact absurd h3 (by omega)

/-- Witness for C8: the degenerate test grant (cliff = length = 12) at exactly
12 months takes the at-cliff branch and the guarded computation succeeds. -/
theorem c8_witness :
    (grantDegenerate.vested_branch { year := 2021, month := 1, day := 1 } =
       VestedRs.VestedBranch.preCliff ∨
     grantDegenerate.vested_branch { year := 2021, month := 1, day := 1 } =
       VestedRs.VestedBranch.fullyVested ∨
     grantDegenerate.vested_branch { year := 2021, month := 1, day := 1 } =
       VestedRs.VestedBranch.atCliff) ∧
    grantDegenerate.calculate_vested_amount_checked { year := 2021, month := 1, day := 1 } =
      some (grantDegenerate.calculate_vested_amount { year := 2021, month := 1, day := 1 }) :=
  c8_no_division_at_degenerate_cliff grantDegenerate { year := 2021, month := 1, day := 1 }
    (by decide)

/-- C2 counterexample: a grant that is valid in the sense of the claim
(cliff 0 at most length 12, percentage one half in the unit interval,
amount 100 non-negative) whose schedule's first entry is 50, not 0: with a
zero cliff the grant date itself is already at the cliff, so the cliff lump
sum is vested at period 0. -/
theorem c2_counterexample :
    (let g : VestedRs.Grant :=
      { amount := 100
        grant_date := { year := 2020, month := 2, day := 6 }
        vesting_schedule :=
          { interval := VestedRs.VestingInterval.Monthly
            cliff_percentage := 1/2
            cliff := 0
            length := 12 } }
     g.ValidConfig ∧
       (g.calculate_vesting_schedule).periods[0]?.map
         (fun per => per.cumulative_vested_amount) = some 50 ∧
       (g.calculate_vesting_schedule).periods[0]?.map
         (fun per => per.cumulative_vested_amount) ≠ some 0) := by
  refine ⟨?_, ?_, ?_⟩
  · unfold VestedRs.Grant.ValidConfig
    norm_num
  · simp only [VestedRs.Grant.calculate_vesting_schedule]
    rw [List.getElem?_map, List.getElem?_range (by norm_num), Option.map_some',
      Option.map_some']
    norm_num [VestedRs.Grant.calculate_vested_amount, VestedRs.Grant.is_before_cliff,
      VestedRs.Grant.months_difference, VestedRs.Grant.cliff_vested_amount,
      Date.addMonths, Date.daysInMonth, Date.isLeapYear]
  · simp only [VestedRs.Grant.calculate_vesting_schedule]
    rw [List.getElem?_map, List.getElem?_range (by norm_num), Option.map_some',
      Option.map_some']
    norm_num [VestedRs.Grant.calculate_vested_amount, VestedRs.Grant.is_before_cliff,
      VestedRs.Grant.months_difference, VestedRs.Grant.cliff_vested_amount,
      Date.addMonths, Date.daysInMonth, Date.isLeapYear]

/-- C2 (amended): for every valid grant whose cliff is strictly positive and
strictly below its length, the schedule has exactly length + 1 entries, its
first entry has cumulative amount 0, its last entry has cumulative amount
exactly equal to the grant amount, from_date is the grant date, and to_date is
the grant date advanced by length months. -/
theorem c2_schedule_shape_amended (g : VestedRs.Grant) (hv : g.ValidConfig)
    (hc : 0 < g.vesting_schedule.cliff)
    (hcl : g.vesting_schedule.cliff < g.vesting_schedule.length) :
    (g.calculate_vesting_schedule).from_date = g.grant_date ∧
    (g.calculate_vesting_schedule).to_date =
      Date.addMonths g.grant_date g.vesting_schedule.length ∧
    (g.calculate_vesting_schedule).periods.length =
      g.vesting_schedule.length.toNat + 1 ∧
    (g.calculate_vesting_schedule).periods[0]?.map
      (fun per => per.cumulative_vested_amount) = some 0 ∧
    (g.calculate_vesting_schedule).periods[g.vesting_schedule.length.toNat]?.map
      (fun per => per.cumulative_vested_amount) = some g.amount := by
  refine ⟨rfl, rfl, ?_, ?_, ?_⟩
  · simp [VestedRs.Grant.calculate_vesting_schedule]
  · simp only [VestedRs.Grant.calculate_vesting_schedule]
    rw [List.getElem?_map, List.getElem?_range (by omega), Option.map_some',
      Option.map_some']
    dsimp only
    rw [calc_eq_pwVested]
    rw [show ((0 : ℕ) : ℤ) = (0 : ℤ) by norm_num] at *
    rw [months_difference_addMonths]
    unfold pwVested
    rw [if_pos (by omega)]
    simp
  · simp only [VestedRs.Grant.calculate_vesting_schedule]
    rw [List.getElem?_map, List.getElem?_range (by omega), Option.map_some',
      Option.map_some']
    dsimp only
    rw [calc_eq_pwVested]
    rw [Int.toNat_of_nonneg (by omega : 0 ≤ g.vesting_schedule.length)]
    rw [months_difference_addMonths]
    rw [pwVested_at_length _ _ _ _ hcl]
    simp

/-- Witness for C2 on the schedule-test grant (cliff 6, length 12): 13
periods, first cumulative amount 0, last cumulative amount 10000. -/
theorem c2_witness :
    grantExample2.ValidConfig ∧
    (grantExample2.calculate_vesting_schedule).periods.length = 13 ∧
    (grantExample2.calculate_vesting_schedule).periods[0]?.map
      (fun per => per.cumulative_vested_amount) = some 0 ∧
    (grantExample2.calculate_vesting_schedule).periods[12]?.map
      (fun per => per.cumulative_vested_amount) = some 10000 := by
  have hv : grantExample2.ValidConfig := by
    unfold VestedRs.Grant.ValidConfig grantExample2
    norm_num
  have h := c2_schedule_shape_amended grantExample2 hv (by decide) (by decide)
  exact ⟨hv, h.2.2.1, h.2.2.2.1, h.2.2.2.2⟩

/-- C3 counterexample: the code performs no construction-time validation.
This grant violates all three validity conditions at once (cliff 10 above
length 3, percentage 2 outside the unit interval, amount -5 negative), yet it
is constructed and calculate_vested_amount runs on it, returning 0 in the
grant month and the (negative) full amount one year later. -/
theorem c3_counterexample :
    grantInvalid.vesting_schedule.length < grantInvalid.vesting_schedule.cliff ∧
    1 < grantInvalid.vesting_schedule.cliff_percentage ∧
    grantInvalid.amount < 0 ∧
    grantInvalid.calculate_vested_amount { year := 2020, month := 1, day := 1 } = 0 ∧
    grantInvalid.calculate_vested_amount { year := 2021, month := 1, day := 1 } = -5 := by
  refine ⟨by decide, ?_, by decide, ?_, ?_⟩
  · unfold grantInvalid
    norm_num
  · norm_num [grantInvalid, VestedRs.Grant.calculate_vested_amount,
      VestedRs.Grant.is_before_cliff, VestedRs.Grant.months_difference,
      VestedRs.Grant.cliff_vested_amount]
  · norm_num [grantInvalid, VestedRs.Grant.calculate_vested_amount,
      VestedRs.Grant.is_before_cliff, VestedRs.Grant.months_difference,
      VestedRs.Grant.cliff_vested_amount]

/-- C3 (amended): construction of a Grant performs no validation: a
configuration with cliff above length, cliff percentage outside the unit
interval, or negative amount is accepted, and such a grant computes vested
amounts through the same piecewise rule as any other grant; no
InvalidConfiguration error exists anywhere in the code. -/
theorem c3_no_validation_amended (g : VestedRs.Grant) (d : Date)
    (hinv : g.vesting_schedule.length < g.vesting_schedule.cliff ∨
      g.vesting_schedule.cliff_percentage < 0 ∨
      1 < g.vesting_schedule.cliff_percentage ∨ g.amount < 0) :
    g.calculate_vested_amount d = specVestedPiecewise g d :=
  calc_eq_specVestedPiecewise g d

/-- Witness for C3 at the invalid grant: its configuration is invalid and its
vested amount is still computed by the piecewise rule. -/
theorem c3_witness :
    grantInvalid.vesting_schedule.length < grantInvalid.vesting_schedule.cliff ∧
    grantInvalid.calculate_vested_amount { year := 2021, month := 1, day := 1 } =
      specVestedPiecewise grantInvalid { year := 2021, month := 1, day := 1 } :=
  ⟨by decide,
   c3_no_validation_amended grantInvalid { year := 2021, month := 1, day := 1 }
     (Or.inl (by decide))⟩

/-- C7: the schedule is the pointwise sampling of calculate_vested_amount:
for every valid grant and every period index i up to length, the i-th period
has date equal to the grant date advanced by i months and cumulative amount
equal to the floor of calculate_vested_amount at that date. -/
theorem c7_schedule_sampling (g : VestedRs.Grant) (hv : g.ValidConfig) :
    ∀ i : ℕ, i ≤ g.vesting_schedule.length.toNat →
      (g.calculate_vesting_schedule).periods[i]? =
        some { date := Date.addMonths g.grant_date (i : ℤ)
               cumulative_vested_amount :=
                 Int.floor (g.calculate_vested_amount
                   (Date.addMonths g.grant_date (i : ℤ))) } := by
  intro i hi
  simp only [VestedRs.Grant.calculate_vesting_schedule]
  rw [List.getElem?_map, List.getElem?_range (by omega), Option.map_some']

/-- Witness for C7: period 7 of the schedule-test grant is 2020-09-06 with
3750 units vested (floor of the sampled amount). -/
theorem c7_witness :
    grantExample2.ValidConfig ∧
    (grantExample2.calculate_vesting_schedule).periods[7]? =
      some { date := { year := 2020, month := 9, day := 6 }
             cumulative_vested_amount := 3750 } := by
  have hv : grantExample2.ValidConfig := by
    unfold VestedRs.Grant.ValidConfig grantExample2
    norm_num
  refine ⟨hv, ?_⟩
  rw [c7_schedule_sampling grantExample2 hv 7 (by decide)]
  norm_num [grantExample2, VestedRs.Grant.calculate_vested_amount,
    VestedRs.Grant.is_before_cliff, VestedRs.Grant.months_difference,
    VestedRs.Grant.cliff_vested_amount, Date.addMonths, Date.daysInMonth, Date.isLeapYear]

example : grantExample.calculate_vested_amount { year := 2021, month := 3, day := 6 } =
    2500 + 625/3 := by
  norm_num [grantExample, VestedRs.Grant.calculate_vested_amount,
    VestedRs.Grant.is_before_cliff, VestedRs.Grant.months_difference,
    VestedRs.Grant.cliff_vested_amount]

example : grantExample.calculate_vested_amount { year := 2023, month := 2, day := 6 } =
    7500 := by
  norm_num [grantExample, VestedRs.Grant.calculate_vested_amount,
    VestedRs.Grant.is_before_cliff, VestedRs.Grant.months_difference,
    VestedRs.Grant.cliff_vested_amount]
